import Mathlib

/-!
Verification of the FocusTube classification-and-filtering pipeline.

This file gives a shallow embedding of the decision logic of the
FocusTube backend and proves properties of it:

* `fallback_classification` embeds `AIClassifier._fallback_classification`
  (backend/app/services/ai_classifier.py), the heuristic rule-based
  classifier;
* `check_video` embeds `FilterEngine.check_video`
  (backend/app/services/filter_engine.py), the ordered short-circuit
  policy engine;
* `activate_mode`, `get_locked_mode` and `check_time_limit` embed the
  corresponding methods of `FocusEngine`
  (backend/app/services/focus_engine.py), with the database modelled as
  an explicit list of the user's modes and watch-history rows and
  `datetime.utcnow()` passed in as an explicit `now : ℕ` (seconds);
* `get_personalized_ranking` embeds
  `PersonalizationService.get_personalized_ranking`
  (backend/app/services/personalization.py).

Python floats are modelled as exact rationals (every score literal in the
source is a small decimal, written here as `mkRat k 10` etc.); Python
strings as Lean `String`, with `str.lower()` / `str.isupper()` modelled
on their ASCII behaviour, which covers every keyword table in the source.
-/

/-! ### String helpers

`isPrefixList` / `isInfixList` implement the Python substring test
`needle in haystack` on the underlying character lists; `lowerStr`
implements `str.lower()` (ASCII case folding, via `Char.toLower`). -/

def isPrefixList : List Char → List Char → Bool
  | [], _ => true
  | _ :: _, [] => false
  | a :: as, b :: bs => a == b && isPrefixList as bs

def isInfixList (needle : List Char) : List Char → Bool
  | [] => isPrefixList needle []
  | c :: t => isPrefixList needle (c :: t) || isInfixList needle t

/-- Python `needle in hay` (substring containment). -/
def containsSub (hay : String) (needle : String) : Bool :=
  isInfixList needle.data hay.data

/-- Python `s.lower()` (ASCII case folding). -/
def lowerStr (s : String) : String :=
  String.mk (s.data.map Char.toLower)

/-- Python `s[:n]` (slice of the first `n` characters). -/
def strTake (s : String) (n : ℕ) : String :=
  String.mk (s.data.take n)

/-! ### Data model

`Video` is the video-metadata dict consumed by the services, with the
source's `video.get(key, default)` defaults already applied (missing
title/description/channel → `""`, missing tags → `[]`, missing
duration → `0`, missing `is_short` → `false`, missing language → `""`).
`VideoClassification` is the Pydantic model of
backend/app/schemas/video.py. -/

structure Video where
  title : String
  description : String
  tags : List String
  channel_title : String
  duration_seconds : ℕ
  is_short : Bool
  language : String
deriving DecidableEq

structure VideoClassification where
  category : String
  confidence_score : ℚ
  entertainment_score : ℚ
  depth_score : ℚ
  clickbait_score : ℚ
deriving DecidableEq

/-! ### Heuristic classifier (`AIClassifier._fallback_classification`)

The keyword tables below are copied verbatim from
backend/app/services/ai_classifier.py (the apostrophes and the three
mojibake emoji literals of the source are written with `\u` escapes). -/

def music_keywords : List String :=
  ["song", "music", "album", "concert", "lyrics", "lyrical", "audio",
   "official video", "official audio", "music video", "full song",
   "video song", "vedio song",
   "lofi", "lo-fi", "hip hop", "rap", "rock", "pop", "jazz", "classical",
   "edm", "dubstep", "remix", "cover", "acoustic", "instrumental",
   "tollywood", "bollywood", "kollywood", "sandalwood",
   "telugu", "hindi", "tamil", "kannada", "malayalam", "bhojpuri",
   "item song", "romantic song", "melody", "gaana", "gana",
   "promo song", "title song", "theme song", "trending song",
   "singer", "vocalist", "rapper", "dj", "producer",
   "beats", "track", "playlist", "mixtape",
   "live performance", "stage", "concert", "mtv", "spotify", "gaana"]

def music_channel_indicators : List String :=
  ["music", "records", "audio", "songs", "entertainment", "media",
   "films", "pictures", "studios", "mangavaram", "lahari", "aditya",
   "zee", "t-series", "sony", "tips", "saregama", "eros"]

def gaming_keywords : List String :=
  ["gameplay", "gaming", "playthrough", "stream", "gamer", "game",
   "walkthrough", "let\u0027s play", "esports", "twitch", "streamer",
   "minecraft", "fortnite", "valorant", "gta", "cod", "pubg",
   "elden ring", "zelda", "pokemon", "nintendo", "playstation", "xbox",
   "speedrun", "pro player", "rank", "competitive"]

def comedy_keywords : List String :=
  ["comedy", "funny", "laugh", "humor", "joke", "stand up", "skit",
   "prank", "roast", "meme", "compilation", "try not to laugh",
   "fails", "bloopers", "reaction", "challenge"]

def general_entertainment : List String :=
  ["movie", "film", "trailer", "teaser", "scenes", "clips",
   "vlog", "day in", "haul", "unboxing", "reaction",
   "celebrity", "interview", "talk show", "reality", "drama"]

def education_keywords : List String :=
  ["tutorial", "course", "lecture", "lesson", "learn", "teaching",
   "education", "educational", "academy", "university", "college",
   "programming", "coding", "developer", "software development",
   "science", "physics", "chemistry", "mathematics", "biology",
   "history", "geography", "economics", "psychology",
   "certification", "exam prep", "study with me", "study tips"]

def tech_keywords : List String :=
  ["technology", "tech review", "python", "javascript", "java",
   "machine learning", "ai", "artificial intelligence", "data science",
   "cloud", "devops", "kubernetes", "docker", "programming tutorial",
   "code", "developer", "engineering", "computer science"]

def howto_keywords : List String :=
  ["how to", "diy", "tips", "tricks", "guide", "step by step",
   "recipe", "cooking", "baking", "makeup", "fashion", "style",
   "workout", "fitness", "yoga", "meditation", "self improvement"]

def clickbait_patterns : List String :=
  ["you won\u0027t believe", "gone wrong", "shocking", "exposed",
   "prank", "\u00F0\u0178\u02DC\u00B1", "\u00F0\u0178\u201D\u00A5",
   "secret", "revealed", "must see",
   "insane", "crazy", "epic fail", "best ever", "unbelievable"]

/-- The category and the two engagement scores threaded through the
keyword cascade (`category`, `entertainment_score`, `depth_score` local
variables of `_fallback_classification`). -/
structure CatScores where
  category : String
  entertainment_score : ℚ
  depth_score : ℚ
deriving DecidableEq

/-- Default values set at the top of `_fallback_classification`. -/
def initialScores : CatScores :=
  ⟨"ENTERTAINMENT", mkRat 5 10, mkRat 5 10⟩

/-- The combined lower-cased text
`f"{title} {' '.join(tags)} {description} {channel}"` used for keyword
matching (the description is lower-cased then truncated to 500 chars). -/
def classifierText (v : Video) : String :=
  lowerStr v.title ++ " " ++
    String.intercalate " " (v.tags.map lowerStr) ++ " " ++
    strTake (lowerStr v.description) 500 ++ " " ++
    lowerStr v.channel_title

/-- PRIORITY 1 (keyword part): first matching music keyword sets
category MUSIC with entertainment 0.8 and depth 0.2 (every keyword sets
the same values, so the source's first-match `break` is `List.any`). -/
def musicStage (text : String) (s : CatScores) : CatScores :=
  if music_keywords.any (fun kw => containsSub text kw) then
    ⟨"MUSIC", mkRat 8 10, mkRat 2 10⟩
  else s

/-- PRIORITY 1 (channel part): only when the category is not already
MUSIC, a music-channel indicator in the channel name sets MUSIC with
entertainment 0.7 and depth 0.3. -/
def musicChannelStage (channel : String) (s : CatScores) : CatScores :=
  if s.category ≠ "MUSIC" ∧
      music_channel_indicators.any (fun ind => containsSub channel ind) then
    ⟨"MUSIC", mkRat 7 10, mkRat 3 10⟩
  else s

/-- PRIORITY 2: gaming keywords, gated on `category == "ENTERTAINMENT"`. -/
def gamingStage (text : String) (s : CatScores) : CatScores :=
  if s.category = "ENTERTAINMENT" ∧
      gaming_keywords.any (fun kw => containsSub text kw) then
    ⟨"GAMING", mkRat 8 10, mkRat 3 10⟩
  else s

/-- PRIORITY 3 (comedy): comedy keywords, gated on ENTERTAINMENT. -/
def comedyStage (text : String) (s : CatScores) : CatScores :=
  if s.category = "ENTERTAINMENT" ∧
      comedy_keywords.any (fun kw => containsSub text kw) then
    ⟨"COMEDY", mkRat 9 10, mkRat 1 10⟩
  else s

/-- PRIORITY 3 (general entertainment): nudges the scores to 0.7/0.3
without changing the category, gated on ENTERTAINMENT. -/
def generalEntStage (text : String) (s : CatScores) : CatScores :=
  if s.category = "ENTERTAINMENT" ∧
      general_entertainment.any (fun kw => containsSub text kw) then
    ⟨s.category, mkRat 7 10, mkRat 3 10⟩
  else s

/-- PRIORITY 4 (education): education keywords, gated on ENTERTAINMENT. -/
def educationStage (text : String) (s : CatScores) : CatScores :=
  if s.category = "ENTERTAINMENT" ∧
      education_keywords.any (fun kw => containsSub text kw) then
    ⟨"EDUCATION", mkRat 2 10, mkRat 8 10⟩
  else s

/-- Tech detection, gated on ENTERTAINMENT. -/
def techStage (text : String) (s : CatScores) : CatScores :=
  if s.category = "ENTERTAINMENT" ∧
      tech_keywords.any (fun kw => containsSub text kw) then
    ⟨"SCIENCE_TECH", mkRat 3 10, mkRat 7 10⟩
  else s

/-- How-to/style detection, gated on ENTERTAINMENT. -/
def howtoStage (text : String) (s : CatScores) : CatScores :=
  if s.category = "ENTERTAINMENT" ∧
      howto_keywords.any (fun kw => containsSub text kw) then
    ⟨"HOWTO_STYLE", mkRat 4 10, mkRat 6 10⟩
  else s

/-- DURATION-BASED ADJUSTMENTS: under 60s (and not MUSIC) floor
entertainment at 0.7 and cap depth at 0.3; over 1200s raise depth by 0.2
capped at 1.0. -/
def durationStage (duration : ℕ) (s : CatScores) : CatScores :=
  if duration < 60 then
    if s.category ∉ ["MUSIC"] then
      ⟨s.category, max s.entertainment_score (mkRat 7 10),
        min s.depth_score (mkRat 3 10)⟩
    else s
  else if duration > 1200 then
    ⟨s.category, s.entertainment_score, min (s.depth_score + mkRat 2 10) 1⟩
  else s

/-- CLICKBAIT DETECTION: starts at 0.1; a matching clickbait phrase sets
it to 0.7; an upper-case ratio above 0.5 in the original title raises it
to at least 0.5; `!!!`, `???` or the red-dot emoji raise it to at least
0.4 (independent maxima). -/
def clickbaitDetection (text : String) (original_title : String) : ℚ :=
  let cb1 : ℚ :=
    if clickbait_patterns.any (fun p => containsSub text p) then mkRat 7 10
    else mkRat 1 10
  let capsFrac : ℚ :=
    (original_title.data.countP Char.isUpper : ℚ) /
      ((max original_title.data.length 1 : ℕ) : ℚ)
  let cb2 : ℚ := if capsFrac > mkRat 1 2 then max cb1 (mkRat 1 2) else cb1
  if containsSub original_title "!!!" || containsSub original_title "???" ||
      containsSub original_title "\u00F0\u0178\u201D\u00B4" then
    max cb2 (mkRat 4 10)
  else cb2

/-- `AIClassifier._fallback_classification`: the full heuristic rule
cascade.  Confidence is fixed at 0.6. -/
def fallback_classification (v : Video) : VideoClassification :=
  let text := classifierText v
  let s :=
    durationStage v.duration_seconds
      (howtoStage text
        (techStage text
          (educationStage text
            (generalEntStage text
              (comedyStage text
                (gamingStage text
                  (musicChannelStage (lowerStr v.channel_title)
                    (musicStage text initialScores))))))))
  { category := s.category
    confidence_score := mkRat 6 10
    entertainment_score := s.entertainment_score
    depth_score := s.depth_score
    clickbait_score := clickbaitDetection text v.title }

/-! ### Filter engine (`FilterEngine.check_video`)

`FocusMode` mirrors the ORM model backend/app/models/focus_mode.py
(fields not read by the embedded services are omitted; `id` is an opaque
identifier, `lock_until` an optional timestamp in seconds).
`FilterVerdict` is the `{"allowed": ..., "reason": ...}` dict returned by
`check_video`. -/

structure FocusMode where
  id : ℕ
  name : String
  is_active : Bool
  is_locked : Bool
  lock_until : Option ℕ
  allowed_categories : List String
  blocked_categories : List String
  min_duration_seconds : ℕ
  allowed_languages : List String
  max_clickbait_score : ℚ
  max_entertainment_score : ℚ
  block_shorts : Bool
  block_trending : Bool
  daily_time_limit_minutes : Option ℕ
  blocked_keywords : List String
deriving DecidableEq

structure FilterVerdict where
  allowed : Bool
  reason : Option String
deriving DecidableEq

/-- Reason string of step 1 of `check_video`. -/
def shortsReason : String := "Shorts are blocked in this focus mode"

/-- Reason string of step 2 (`minimum {seconds // 60} minutes`). -/
def durationReason (m : FocusMode) : String :=
  "Video too short (minimum " ++ toString (m.min_duration_seconds / 60) ++
    " minutes required)"

/-- Reason string of the blocked-categories half of step 3. -/
def blockedCategoryReason (category : String) : String :=
  "Category \u0027" ++ category ++ "\u0027 is blocked in this focus mode"

/-- Reason string of the allowed-categories half of step 3. -/
def notAllowedCategoryReason (category : String) : String :=
  "Category \u0027" ++ category ++ "\u0027 is not allowed in this focus mode"

/-- Reason string of step 4 (language). -/
def languageReason (lang : String) : String :=
  "Language \u0027" ++ lang ++ "\u0027 is not allowed in this focus mode"

/-- Python `f"{q:.2f}"` on a non-negative score: the value rounded to two
decimal places (half away from zero). -/
def format2f (q : ℚ) : String :=
  let cents : ℤ := (q * 100 + mkRat 1 2).floor
  toString (cents / 100) ++ "." ++
    (if cents % 100 < 10 then "0" else "") ++ toString (cents % 100)

/-- Reason string of step 5 (clickbait score). -/
def clickbaitReason (score : ℚ) : String :=
  "Video detected as clickbait (score: " ++ format2f score ++ ")"

/-- Reason string of step 6 (entertainment score). -/
def entertainmentReason (score : ℚ) : String :=
  "Video too entertaining for this focus mode (score: " ++ format2f score ++ ")"

/-- Reason string of step 7 (blocked keyword). -/
def keywordReason (kw : String) : String :=
  "Video contains blocked keyword: \u0027" ++ kw ++ "\u0027"

/-- Step 3 of `check_video`: the two category checks, blocked categories
first, then (only if the allow-list is non-empty) the allow-list. -/
def categoryCheck (m : FocusMode) (category : String) : Option String :=
  if m.blocked_categories ≠ [] ∧ category ∈ m.blocked_categories then
    some (blockedCategoryReason category)
  else if m.allowed_categories ≠ [] ∧ category ∉ m.allowed_categories then
    some (notAllowedCategoryReason category)
  else none

/-- Step 7 of `check_video`: the first blocked keyword (lower-cased)
occurring in the lower-cased title or description, if the keyword list is
non-empty. -/
def keywordHit (m : FocusMode) (v : Video) : Option String :=
  if m.blocked_keywords ≠ [] then
    m.blocked_keywords.find? (fun kw =>
      containsSub (lowerStr v.title) (lowerStr kw) ||
        containsSub (lowerStr v.description) (lowerStr kw))
  else none

/-- `FilterEngine.check_video`: the ordered short-circuit rule chain.
The trending flag (`block_trending`) is declared on the mode but never
evaluated here, exactly as in the source. -/
def check_video (m : FocusMode) (v : Video) (c : VideoClassification) :
    FilterVerdict :=
  if m.block_shorts ∧ v.is_short then
    ⟨false, some shortsReason⟩
  else if v.duration_seconds < m.min_duration_seconds then
    ⟨false, some (durationReason m)⟩
  else match categoryCheck m c.category with
  | some r => ⟨false, some r⟩
  | none =>
    if m.allowed_languages ≠ [] ∧ v.language ≠ "" ∧
        v.language ∉ m.allowed_languages then
      ⟨false, some (languageReason v.language)⟩
    else if c.clickbait_score > m.max_clickbait_score then
      ⟨false, some (clickbaitReason c.clickbait_score)⟩
    else if c.entertainment_score > m.max_entertainment_score then
      ⟨false, some (entertainmentReason c.entertainment_score)⟩
    else match keywordHit m v with
    | some kw => ⟨false, some (keywordReason kw)⟩
    | none => ⟨true, none⟩

/-- The `"study"` entry of `PRESET_MODES` (backend/app/routers/modes.py),
with the ORM defaults for the unspecified fields. -/
def studyMode : FocusMode where
  id := 1
  name := "Study Mode"
  is_active := false
  is_locked := false
  lock_until := none
  allowed_categories := ["EDUCATION"]
  blocked_categories :=
    ["ENTERTAINMENT", "COMEDY", "GAMING", "MUSIC", "SCIENCE_TECH",
     "HOWTO_STYLE"]
  min_duration_seconds := 180
  allowed_languages := []
  max_clickbait_score := mkRat 5 10
  max_entertainment_score := mkRat 6 10
  block_shorts := true
  block_trending := false
  daily_time_limit_minutes := none
  blocked_keywords := ["prank", "gone wrong", "challenge"]

/-! ### Focus engine (`FocusEngine`)

The database is modelled as the list of the user's `FocusMode` rows (the
engine only ever queries modes of its own user, so the `user_id` filter
is the identity here) and the list of the user's `WatchHistory` rows;
`datetime.utcnow()` is an explicit `now : ℕ`.  `ValueError`s raised by
the engine and SQLAlchemy's `MultipleResultsFound` are an explicit error
type. -/

inductive EngineError where
  /-- `ValueError(f"Cannot change mode: ...")`, carrying the locked
  mode's name and `lock_until` that the message interpolates. -/
  | lockedStateConflict (name : String) (lock_until : Option ℕ)
  /-- `ValueError("Focus mode not found")`. -/
  | notFound
  /-- SQLAlchemy `MultipleResultsFound` from `scalar_one_or_none()`. -/
  | multipleResults
deriving DecidableEq

/-- SQLAlchemy `Result.scalar_one_or_none()` on a result list. -/
def scalarOneOrNone : List α → Except EngineError (Option α)
  | [] => .ok none
  | [x] => .ok (some x)
  | _ => .error .multipleResults

/-- The lazy unlock performed by `_get_locked_mode` on an expired lock:
`is_locked = False`, `lock_until = None` on the mode with the given id. -/
def clearExpiredLock (mid : ℕ) (modes : List FocusMode) : List FocusMode :=
  modes.map (fun x =>
    if x.id = mid then { x with is_locked := false, lock_until := none }
    else x)

/-- `FocusEngine._get_locked_mode`: queries the mode with
`is_locked == True`; if its lock has expired (`lock_until ≤ now`) it is
lazily unlocked and `None` is returned.  Returns the still-locked mode
(if any) together with the updated mode list. -/
def get_locked_mode (now : ℕ) (modes : List FocusMode) :
    Except EngineError (Option FocusMode × List FocusMode) :=
  match scalarOneOrNone (modes.filter (·.is_locked)) with
  | .error e => .error e
  | .ok none => .ok (none, modes)
  | .ok (some m) =>
    match m.lock_until with
    | none => .ok (none, modes)
    | some t =>
      if t > now then .ok (some m, modes)
      else .ok (none, clearExpiredLock m.id modes)

/-- The loop of `activate_mode` that walks the deactivated modes and
activates the first one whose id matches, returning the updated list and
the activated mode (`None` when no id matches). -/
def activateFirst (mode_id : ℕ) :
    List FocusMode → Option (List FocusMode × FocusMode)
  | [] => none
  | m :: rest =>
    if m.id = mode_id then
      some ({ m with is_active := true } :: rest, { m with is_active := true })
    else
      match activateFirst mode_id rest with
      | some (rest', t) => some (m :: rest', t)
      | none => none

/-- The "deactivate all modes" loop of `activate_mode`: every owned mode
gets `is_active = False`, `is_locked = False`, `lock_until = None`. -/
def deactivateAll (modes : List FocusMode) : List FocusMode :=
  modes.map (fun m =>
    { m with is_active := false, is_locked := false, lock_until := none })

/-- `FocusEngine.activate_mode`: fails while some mode is still locked,
otherwise deactivates and unlocks every mode, then activates the
requested one; fails with `notFound` when no owned mode has that id. -/
def activate_mode (now : ℕ) (modes : List FocusMode) (mode_id : ℕ) :
    Except EngineError (List FocusMode × FocusMode) :=
  match get_locked_mode now modes with
  | .error e => .error e
  | .ok (some m, _) => .error (.lockedStateConflict m.name m.lock_until)
  | .ok (none, modes₁) =>
    match activateFirst mode_id (deactivateAll modes₁) with
    | none => .error .notFound
    | some (modes₂, target) => .ok (modes₂, target)

/-- One row of the `watch_history` table, restricted to the columns read
by `check_time_limit` (`watched_at` in seconds). -/
structure WatchHistoryEntry where
  watch_duration_seconds : ℕ
  watched_at : ℕ
deriving DecidableEq

/-- The dict returned by `FocusEngine.check_time_limit`. -/
structure TimeLimitStatus where
  has_limit : Bool
  exceeded : Bool
  used_minutes : ℕ
  limit_minutes : Option ℕ
  remaining_minutes : Option ℤ
deriving DecidableEq

/-- The no-limit dict returned when `daily_time_limit_minutes` is falsy. -/
def noLimitStatus : TimeLimitStatus :=
  ⟨false, false, 0, none, none⟩

/-- Today's summed `watch_duration_seconds`
(`SELECT sum(...) WHERE watched_at >= today_start`, with `None → 0`). -/
def todaySeconds (today_start : ℕ) (history : List WatchHistoryEntry) : ℕ :=
  ((history.filter (fun w => today_start ≤ w.watched_at)).map
    (·.watch_duration_seconds)).sum

/-- `FocusEngine.check_time_limit`.  Python's
`if not mode.daily_time_limit_minutes` is falsy for both `None` and `0`,
so both report no limit.  `used_minutes` is integer division by 60,
`remaining` is `max(0, limit - used)` over the integers. -/
def check_time_limit (mode : FocusMode) (today_start : ℕ)
    (history : List WatchHistoryEntry) : TimeLimitStatus :=
  match mode.daily_time_limit_minutes with
  | none => noLimitStatus
  | some 0 => noLimitStatus
  | some limit =>
    let used_minutes := todaySeconds today_start history / 60
    { has_limit := true
      exceeded := decide (used_minutes ≥ limit)
      used_minutes := used_minutes
      limit_minutes := some limit
      remaining_minutes := some (max 0 ((limit : ℤ) - (used_minutes : ℤ))) }

/-! ### Personalization re-ranker
(`PersonalizationService.get_personalized_ranking`)

The preferred/avoided category sets computed by `get_user_preferences`
are passed in explicitly; a feed item is the dict fields the ranker
reads (with the source's `video.get` defaults applied by the caller). -/

structure FeedVideo where
  category : String
  depth_score : ℚ
  clickbait_score : ℚ
deriving DecidableEq

/-- A feed item annotated with its `personalization_score`
(`{**video, "personalization_score": score}`). -/
structure ScoredVideo where
  video : FeedVideo
  personalization_score : ℚ
deriving DecidableEq

/-- The score loop body of `get_personalized_ranking`: base 1.0, +0.5 for
a preferred category, −0.5 for an avoided one, +0.3·depth, −0.4·clickbait. -/
def personalizationScore (preferred avoided : List String)
    (v : FeedVideo) : ℚ :=
  let score : ℚ := 1
  let score := if v.category ∈ preferred then score + mkRat 5 10 else score
  let score := if v.category ∈ avoided then score - mkRat 5 10 else score
  let score := score + v.depth_score * mkRat 3 10
  score - v.clickbait_score * mkRat 4 10

/-- `get_personalized_ranking`: annotate every video with its score and
sort by score descending (`sorted(..., reverse=True)` — a stable sort,
modelled by `List.mergeSort`, which is also stable). -/
def get_personalized_ranking (preferred avoided : List String)
    (videos : List FeedVideo) : List ScoredVideo :=
  let scored := videos.map (fun v =>
    ScoredVideo.mk v (personalizationScore preferred avoided v))
  scored.mergeSort (fun a b =>
    decide (b.personalization_score ≤ a.personalization_score))

/-! ### Helper lemmas -/

/-- Two strings of different lengths are different. -/
lemma String.ne_of_length_ne {s t : String} (h : s.length ≠ t.length) :
    s ≠ t := fun e => h (by rw [e])

lemma shortsReason_ne_durationReason (m : FocusMode) :
    shortsReason ≠ durationReason m := by
  apply String.ne_of_length_ne
  rw [durationReason, String.length_append, String.length_append]
  have h1 : shortsReason.length = 37 := by decide
  have h2 : ("Video too short (minimum " : String).length = 25 := by decide
  have h3 : (" minutes required)" : String).length = 18 := by decide
  omega

lemma blockedCategoryReason_ne_notAllowedCategoryReason (cat : String) :
    blockedCategoryReason cat ≠ notAllowedCategoryReason cat := by
  apply String.ne_of_length_ne
  rw [blockedCategoryReason, notAllowedCategoryReason,
    String.length_append, String.length_append,
    String.length_append, String.length_append]
  have h1 : ("' is blocked in this focus mode" : String).length = 31 := by
    decide
  have h2 : ("' is not allowed in this focus mode" : String).length = 35 := by
    decide
  omega

/-- C2: when a mode blocks shorts, the video is a short, and its duration
is also below the mode's minimum, `check_video` blocks with the
shorts-policy reason (the shorts check precedes the duration check), not
the minimum-duration reason. -/
theorem shorts_check_precedes_duration_check
    (m : FocusMode) (v : Video) (c : VideoClassification)
    (hbs : m.block_shorts = true) (hshort : v.is_short = true)
    (_hdur : v.duration_seconds < m.min_duration_seconds) :
    check_video m v c = ⟨false, some shortsReason⟩ ∧
      shortsReason ≠ durationReason m := by
  refine ⟨?_, shortsReason_ne_durationReason m⟩
  rw [check_video, if_pos ⟨hbs, hshort⟩]

theorem shorts_check_precedes_duration_check_witness :
    check_video studyMode
        ⟨"t", "", [], "", 30, true, ""⟩ ⟨"EDUCATION", 0, 0, 0, 0⟩ =
      ⟨false, some shortsReason⟩ ∧
      shortsReason ≠ durationReason studyMode :=
  shorts_check_precedes_duration_check studyMode
    ⟨"t", "", [], "", 30, true, ""⟩ ⟨"EDUCATION", 0, 0, 0, 0⟩
    rfl rfl (by decide)

/-- C3: with `allowed_categories = []` and `blocked_categories = []` the
category checks never block (and `check_video`'s verdict is independent
of the classification's category); the allowed-categories check rejects
only when the allow-list is non-empty and the category is not in it; and
the blocked-categories check is evaluated before the allowed-categories
check (a category in a non-empty block-list yields the blocked reason no
matter what the allow-list contains). -/
theorem empty_category_lists_allow_any :
    (∀ (m : FocusMode) (cat : String), m.allowed_categories = [] →
        m.blocked_categories = [] → categoryCheck m cat = none) ∧
    (∀ (m : FocusMode) (cat : String),
        categoryCheck m cat = some (notAllowedCategoryReason cat) →
        m.allowed_categories ≠ [] ∧ cat ∉ m.allowed_categories) ∧
    (∀ (m : FocusMode) (cat : String), m.blocked_categories ≠ [] →
        cat ∈ m.blocked_categories →
        categoryCheck m cat = some (blockedCategoryReason cat)) ∧
    (∀ (m : FocusMode) (v : Video) (c : VideoClassification) (cat : String),
        m.allowed_categories = [] → m.blocked_categories = [] →
        check_video m v c = check_video m v { c with category := cat }) := by
  have hnone : ∀ (m : FocusMode) (cat : String), m.allowed_categories = [] →
      m.blocked_categories = [] → categoryCheck m cat = none := by
    intro m cat ha hb
    rw [categoryCheck, if_neg (by simp [hb]), if_neg (by simp [ha])]
  refine ⟨hnone, ?_, ?_, ?_⟩
  · intro m cat h
    rw [categoryCheck] at h
    split at h
    · exact absurd (Option.some.inj h)
        (blockedCategoryReason_ne_notAllowedCategoryReason cat)
    · split at h
      · next hc => exact hc
      · exact absurd h (by simp)
  · intro m cat hb hmem
    rw [categoryCheck, if_pos ⟨hb, hmem⟩]
  · intro m v c cat ha hb
    rw [check_video, check_video, hnone m c.category ha hb,
      hnone m cat ha hb]

theorem empty_category_lists_allow_any_witness :
    categoryCheck
        { studyMode with allowed_categories := [], blocked_categories := [] }
        "ENTERTAINMENT" = none ∧
    categoryCheck studyMode "MUSIC" = some (blockedCategoryReason "MUSIC") :=
  ⟨empty_category_lists_allow_any.1 _ "ENTERTAINMENT" rfl rfl,
   empty_category_lists_allow_any.2.2.1 studyMode "MUSIC" (by decide)
     (by decide)⟩

lemma durationReason_length_pos (m : FocusMode) :
    0 < (durationReason m).length := by
  rw [durationReason, String.length_append, String.length_append]
  have h : ("Video too short (minimum " : String).length = 25 := by decide
  omega

lemma blockedCategoryReason_length_pos (cat : String) :
    0 < (blockedCategoryReason cat).length := by
  rw [blockedCategoryReason, String.length_append, String.length_append]
  have h : ("Category '" : String).length = 10 := by decide
  omega

lemma notAllowedCategoryReason_length_pos (cat : String) :
    0 < (notAllowedCategoryReason cat).length := by
  rw [notAllowedCategoryReason, String.length_append, String.length_append]
  have h : ("Category '" : String).length = 10 := by decide
  omega

lemma categoryCheck_length_pos {m : FocusMode} {cat : String} {r : String}
    (h : categoryCheck m cat = some r) : 0 < r.length := by
  rw [categoryCheck] at h
  split at h
  · cases Option.some.inj h
    exact blockedCategoryReason_length_pos cat
  · split at h
    · cases Option.some.inj h
      exact notAllowedCategoryReason_length_pos cat
    · exact absurd h (by simp)

lemma languageReason_length_pos (lang : String) :
    0 < (languageReason lang).length := by
  rw [languageReason, String.length_append, String.length_append]
  have h : ("Language '" : String).length = 10 := by decide
  omega

lemma clickbaitReason_length_pos (q : ℚ) :
    0 < (clickbaitReason q).length := by
  rw [clickbaitReason, String.length_append, String.length_append]
  have h : 0 < ("Video detected as clickbait (score: " : String).length := by
    decide
  omega

lemma entertainmentReason_length_pos (q : ℚ) :
    0 < (entertainmentReason q).length := by
  rw [entertainmentReason, String.length_append, String.length_append]
  have h : 0 < ("Video too entertaining for this focus mode (score: " :
    String).length := by decide
  omega

lemma keywordReason_length_pos (kw : String) :
    0 < (keywordReason kw).length := by
  rw [keywordReason, String.length_append, String.length_append]
  have h : ("Video contains blocked keyword: '" : String).length = 33 := by
    decide
  omega

/-- C4: every verdict of `check_video` is unambiguous — either allowed
with no reason, or blocked with a non-empty reason string (the reason of
the first failing rule). -/
theorem check_video_verdict_unambiguous
    (m : FocusMode) (v : Video) (c : VideoClassification) :
    ((check_video m v c).allowed = true ∧ (check_video m v c).reason = none)
    ∨ ((check_video m v c).allowed = false ∧
        ∃ r, (check_video m v c).reason = some r ∧ 0 < r.length) := by
  rw [check_video]
  split
  · exact Or.inr ⟨rfl, shortsReason, rfl, by decide⟩
  · split
    · exact Or.inr ⟨rfl, durationReason m, rfl, durationReason_length_pos m⟩
    · split
      · next r hr =>
        exact Or.inr ⟨rfl, r, rfl, categoryCheck_length_pos hr⟩
      · split
        · exact Or.inr ⟨rfl, languageReason v.language, rfl,
            languageReason_length_pos v.language⟩
        · split
          · exact Or.inr ⟨rfl, clickbaitReason c.clickbait_score, rfl,
              clickbaitReason_length_pos c.clickbait_score⟩
          · split
            · exact Or.inr ⟨rfl, entertainmentReason c.entertainment_score,
                rfl, entertainmentReason_length_pos c.entertainment_score⟩
            · split
              · next kw _ =>
                exact Or.inr ⟨rfl, keywordReason kw, rfl,
                  keywordReason_length_pos kw⟩
              · exact Or.inl ⟨rfl, rfl⟩

/-- C6: with a configured non-zero daily limit, `check_time_limit`
reports the minutes used today (today's summed watch seconds, integer
division by 60), `exceeded = (used ≥ limit)` and
`remaining = max 0 (limit − used)`; without a configured limit it
reports `has_limit = false` and no numeric bounds. -/
theorem check_time_limit_spec :
    (∀ (mode : FocusMode) (today_start : ℕ)
        (history : List WatchHistoryEntry) (l : ℕ),
        mode.daily_time_limit_minutes = some l → l ≠ 0 →
        check_time_limit mode today_start history =
          { has_limit := true
            exceeded := decide (todaySeconds today_start history / 60 ≥ l)
            used_minutes := todaySeconds today_start history / 60
            limit_minutes := some l
            remaining_minutes :=
              some (max 0 ((l : ℤ) -
                (todaySeconds today_start history / 60 : ℕ))) }) ∧
    (∀ (mode : FocusMode) (today_start : ℕ)
        (history : List WatchHistoryEntry),
        mode.daily_time_limit_minutes = none →
        check_time_limit mode today_start history = noLimitStatus) := by
  constructor
  · intro mode today_start history l hl hl0
    rw [check_time_limit, hl]
    match l, hl0 with
    | (n + 1), _ => rfl
  · intro mode today_start history h
    rw [check_time_limit, h]

theorem check_time_limit_spec_witness :
    check_time_limit
        { studyMode with daily_time_limit_minutes := some 60 } 0
        [⟨4200, 5⟩] =
      ⟨true, true, 70, some 60, some 0⟩ := by
  have h := check_time_limit_spec.1
    { studyMode with daily_time_limit_minutes := some 60 } 0
    [⟨4200, 5⟩] 60 rfl (by decide)
  rw [h]
  decide

/-- C9: a daily limit of exactly 0 is treated as no limit at all
(Python's falsy check `if not mode.daily_time_limit_minutes` does not
distinguish 0 from `None`): `check_time_limit` reports
`has_limit = false`, `exceeded = false`, `used_minutes = 0` and no
numeric bounds, whatever the watch history. -/
theorem zero_daily_limit_means_no_limit
    (mode : FocusMode) (today_start : ℕ)
    (history : List WatchHistoryEntry)
    (h : mode.daily_time_limit_minutes = some 0) :
    check_time_limit mode today_start history = noLimitStatus := by
  rw [check_time_limit, h]

theorem zero_daily_limit_means_no_limit_witness :
    check_time_limit
        { studyMode with daily_time_limit_minutes := some 0 } 0
        [⟨360000, 5⟩] =
      noLimitStatus :=
  zero_daily_limit_means_no_limit _ 0 [⟨360000, 5⟩] rfl


lemma activateFirst_eq_none {mode_id : ℕ} {l : List FocusMode}
    (h : ∀ m ∈ l, m.id ≠ mode_id) : activateFirst mode_id l = none := by
  induction l with
  | nil => rfl
  | cons m rest ih =>
    rw [activateFirst, if_neg (h m (List.mem_cons_self m rest)),
      ih (fun x hx => h x (List.mem_cons_of_mem m hx))]

lemma activateFirst_spec {mode_id : ℕ} {l modes₂ : List FocusMode}
    {t : FocusMode}
    (hpre : ∀ m ∈ l, m.is_active = false ∧ m.is_locked = false ∧
      m.lock_until = none)
    (h : activateFirst mode_id l = some (modes₂, t)) :
    (∀ m ∈ modes₂, m.is_locked = false ∧ m.lock_until = none ∧
        (m.is_active = true → m.id = mode_id)) ∧
    modes₂.countP (·.is_active) = 1 ∧
    t.is_active = true ∧ t.id = mode_id := by
  induction l generalizing modes₂ with
  | nil => exact absurd h (by simp [activateFirst])
  | cons m rest ih =>
    rw [activateFirst] at h
    by_cases hid : m.id = mode_id
    · rw [if_pos hid] at h
      simp only [Option.some.injEq, Prod.mk.injEq] at h
      obtain ⟨rfl, rfl⟩ := h
      obtain ⟨-, hml, hmu⟩ := hpre m (List.mem_cons_self m rest)
      refine ⟨?_, ?_, rfl, hid⟩
      · intro x hx
        rcases List.mem_cons.mp hx with rfl | hx
        · exact ⟨hml, hmu, fun _ => hid⟩
        · obtain ⟨hxa, hxl, hxu⟩ := hpre x (List.mem_cons_of_mem m hx)
          exact ⟨hxl, hxu, fun habs => absurd (hxa ▸ habs) (by simp)⟩
      · rw [List.countP_cons]
        have hz : rest.countP (·.is_active) = 0 :=
          List.countP_eq_zero.mpr (fun x hx => by
            simp [(hpre x (List.mem_cons_of_mem m hx)).1])
        simp [hz]
    · rw [if_neg hid] at h
      cases hAF : activateFirst mode_id rest with
      | none => rw [hAF] at h; exact absurd h (by simp)
      | some p =>
        obtain ⟨rest', t'⟩ := p
        rw [hAF] at h
        simp only [Option.some.injEq, Prod.mk.injEq] at h
        obtain ⟨rfl, rfl⟩ := h
        obtain ⟨hAll, hCount, hT⟩ :=
          ih (fun x hx => hpre x (List.mem_cons_of_mem m hx)) hAF
        obtain ⟨hma, hml, hmu⟩ := hpre m (List.mem_cons_self m rest)
        refine ⟨?_, ?_, hT⟩
        · intro x hx
          rcases List.mem_cons.mp hx with rfl | hx
          · exact ⟨hml, hmu, fun habs => absurd (hma ▸ habs) (by simp)⟩
          · exact hAll x hx
        · rw [List.countP_cons]
          simp [hma, hCount]

lemma get_locked_mode_active_lock {now t : ℕ} {modes : List FocusMode}
    {m : FocusMode} (hf : modes.filter (·.is_locked) = [m])
    (hlu : m.lock_until = some t) (hnow : now < t) :
    get_locked_mode now modes = .ok (some m, modes) := by
  rw [get_locked_mode, hf]
  simp only [scalarOneOrNone, hlu]
  rw [if_pos hnow]

lemma get_locked_mode_expired_lock {now t : ℕ} {modes : List FocusMode}
    {m : FocusMode} (hf : modes.filter (·.is_locked) = [m])
    (hlu : m.lock_until = some t) (hnow : t ≤ now) :
    get_locked_mode now modes = .ok (none, clearExpiredLock m.id modes) := by
  rw [get_locked_mode, hf]
  simp only [scalarOneOrNone, hlu]
  rw [if_neg (by omega)]

lemma get_locked_mode_no_lock {now : ℕ} {modes : List FocusMode}
    (h : ∀ m ∈ modes, m.is_locked = false) :
    get_locked_mode now modes = .ok (none, modes) := by
  have hf : modes.filter (·.is_locked) = [] :=
    List.filter_eq_nil_iff.mpr (fun a ha => by simp [h a ha])
  rw [get_locked_mode, hf]
  rfl

lemma activate_mode_no_lockedStateConflict {now mode_id : ℕ}
    {modes modes₁ : List FocusMode}
    (hg : get_locked_mode now modes = .ok (none, modes₁))
    (nm : String) (lu : Option ℕ) :
    activate_mode now modes mode_id ≠
      .error (.lockedStateConflict nm lu) := by
  rw [activate_mode, hg]
  dsimp only
  cases hAF : activateFirst mode_id (deactivateAll modes₁) with
  | none => simp
  | some p => simp

/-- C5: while any owned mode is locked with `lock_until` in the future,
`activate_mode` fails with the locked-state conflict naming that mode
(the hypotheses place no constraint relating the locked mode to the
target id, so this holds even when they differ); an expired lock
(`lock_until ≤ now`) is lazily cleared by `get_locked_mode` and never
produces that failure; and with no locked mode, a target id not among
the user's modes fails with `notFound`. -/
theorem activate_mode_lock_behaviour :
    (∀ (now : ℕ) (modes : List FocusMode) (mode_id : ℕ)
        (m : FocusMode) (t : ℕ),
        modes.filter (·.is_locked) = [m] → m.lock_until = some t → now < t →
        activate_mode now modes mode_id =
          .error (.lockedStateConflict m.name m.lock_until)) ∧
    (∀ (now : ℕ) (modes : List FocusMode) (m : FocusMode) (t : ℕ),
        modes.filter (·.is_locked) = [m] → m.lock_until = some t → t ≤ now →
        get_locked_mode now modes =
          .ok (none, clearExpiredLock m.id modes) ∧
        ∀ (mode_id : ℕ) (nm : String) (lu : Option ℕ),
          activate_mode now modes mode_id ≠
            .error (.lockedStateConflict nm lu)) ∧
    (∀ (now : ℕ) (modes : List FocusMode) (mode_id : ℕ),
        (∀ m ∈ modes, m.is_locked = false) →
        mode_id ∉ modes.map (·.id) →
        activate_mode now modes mode_id = .error .notFound) := by
  refine ⟨?_, ?_, ?_⟩
  · intro now modes mode_id m t hf hlu hnow
    rw [activate_mode, get_locked_mode_active_lock hf hlu hnow]
  · intro now modes m t hf hlu hnow
    exact ⟨get_locked_mode_expired_lock hf hlu hnow,
      fun mode_id nm lu => activate_mode_no_lockedStateConflict
        (get_locked_mode_expired_lock hf hlu hnow) nm lu⟩
  · intro now modes mode_id hunlocked hnot
    rw [activate_mode, get_locked_mode_no_lock hunlocked]
    dsimp only
    have hnone : activateFirst mode_id (deactivateAll modes) = none := by
      apply activateFirst_eq_none
      intro x hx
      obtain ⟨y, hy, rfl⟩ := List.mem_map.mp hx
      intro he
      exact hnot (he ▸ List.mem_map_of_mem (·.id) hy)
    rw [hnone]


/-- Fixture: a mode locked until t = 200. -/
def lockedModeW : FocusMode :=
  { studyMode with id := 1, is_locked := true, lock_until := some 200 }

/-- Fixture: an unlocked inactive mode. -/
def otherModeW : FocusMode := { studyMode with id := 2 }

theorem activate_mode_lock_behaviour_witness :
    activate_mode 100 [lockedModeW, otherModeW] 2 =
      .error (.lockedStateConflict "Study Mode" (some 200)) ∧
    get_locked_mode 300 [lockedModeW, otherModeW] =
      .ok (none, clearExpiredLock 1 [lockedModeW, otherModeW]) ∧
    activate_mode 300 [lockedModeW, otherModeW] 2 ≠
      .error (.lockedStateConflict "Study Mode" (some 200)) ∧
    activate_mode 100 [otherModeW] 99 = .error .notFound :=
  ⟨activate_mode_lock_behaviour.1 100 [lockedModeW, otherModeW] 2
      lockedModeW 200 rfl rfl (by decide),
   (activate_mode_lock_behaviour.2.1 300 [lockedModeW, otherModeW]
      lockedModeW 200 rfl rfl (by decide)).1,
   (activate_mode_lock_behaviour.2.1 300 [lockedModeW, otherModeW]
      lockedModeW 200 rfl rfl (by decide)).2 2 "Study Mode" (some 200),
   activate_mode_lock_behaviour.2.2 100 [otherModeW] 99
      (fun m hm => by rw [List.mem_singleton] at hm; subst hm; rfl)
      (by decide)⟩

/-- C10: after a successful `activate_mode`, every returned mode is
unlocked (`is_locked = false`, `lock_until = none`), exactly one mode is
active, any active mode has the target id, and the returned target is
active with the target id. -/
theorem activate_mode_postcondition
    (now : ℕ) (modes : List FocusMode) (mode_id : ℕ)
    (modes₂ : List FocusMode) (target : FocusMode)
    (h : activate_mode now modes mode_id = .ok (modes₂, target)) :
    (∀ m ∈ modes₂, m.is_locked = false ∧ m.lock_until = none ∧
        (m.is_active = true → m.id = mode_id)) ∧
    modes₂.countP (·.is_active) = 1 ∧
    target.is_active = true ∧ target.id = mode_id := by
  rw [activate_mode] at h
  cases hg : get_locked_mode now modes with
  | error e => rw [hg] at h; exact absurd h (by simp)
  | ok p =>
    obtain ⟨locked, modes₁⟩ := p
    rw [hg] at h
    cases locked with
    | some m => exact absurd h (by simp)
    | none =>
      dsimp only at h
      cases hAF : activateFirst mode_id (deactivateAll modes₁) with
      | none => rw [hAF] at h; exact absurd h (by simp)
      | some p2 =>
        obtain ⟨l2, t2⟩ := p2
        rw [hAF] at h
        simp only [Except.ok.injEq, Prod.mk.injEq] at h
        obtain ⟨rfl, rfl⟩ := h
        exact activateFirst_spec
          (fun x hx => by
            obtain ⟨y, -, rfl⟩ := List.mem_map.mp hx
            exact ⟨rfl, rfl, rfl⟩)
          hAF

theorem activate_mode_postcondition_witness :
    (∀ m ∈ [{ otherModeW with id := 1 },
        { otherModeW with id := 2, is_active := true }],
      m.is_locked = false ∧ m.lock_until = none ∧
        (m.is_active = true → m.id = 2)) ∧
    List.countP (·.is_active)
      [{ otherModeW with id := 1 },
       { otherModeW with id := 2, is_active := true }] = 1 ∧
    ({ otherModeW with id := 2, is_active := true } : FocusMode).is_active
        = true ∧
    ({ otherModeW with id := 2, is_active := true } : FocusMode).id = 2 :=
  activate_mode_postcondition 100
    [{ otherModeW with id := 1, is_active := true },
     { otherModeW with id := 2 }] 2
    [{ otherModeW with id := 1 },
     { otherModeW with id := 2, is_active := true }]
    { otherModeW with id := 2, is_active := true }
    rfl

/-! ### Classifier invariants (C1) -/

/-- The categories the heuristic cascade can emit. -/
def classifierCategories : List String :=
  ["ENTERTAINMENT", "MUSIC", "GAMING", "COMEDY", "EDUCATION",
   "SCIENCE_TECH", "HOWTO_STYLE"]

/-- Invariant threaded through the cascade: the category is one of the
emitted set and both engagement scores lie in `[0, 1]`. -/
abbrev ScoresInv (s : CatScores) : Prop :=
  s.category ∈ classifierCategories ∧
    0 ≤ s.entertainment_score ∧ s.entertainment_score ≤ 1 ∧
    0 ≤ s.depth_score ∧ s.depth_score ≤ 1

lemma musicStage_inv {text : String} {s : CatScores} (h : ScoresInv s) :
    ScoresInv (musicStage text s) := by
  rw [musicStage]; split
  · exact by decide
  · exact h

lemma musicChannelStage_inv {channel : String} {s : CatScores}
    (h : ScoresInv s) : ScoresInv (musicChannelStage channel s) := by
  rw [musicChannelStage]; split
  · exact by decide
  · exact h

lemma gamingStage_inv {text : String} {s : CatScores} (h : ScoresInv s) :
    ScoresInv (gamingStage text s) := by
  rw [gamingStage]; split
  · exact by decide
  · exact h

lemma comedyStage_inv {text : String} {s : CatScores} (h : ScoresInv s) :
    ScoresInv (comedyStage text s) := by
  rw [comedyStage]; split
  · exact by decide
  · exact h

lemma generalEntStage_inv {text : String} {s : CatScores} (h : ScoresInv s) :
    ScoresInv (generalEntStage text s) := by
  rw [generalEntStage]; split
  · exact ⟨h.1, (by decide : (0 : ℚ) ≤ mkRat 7 10),
      (by decide : (mkRat 7 10 : ℚ) ≤ 1),
      (by decide : (0 : ℚ) ≤ mkRat 3 10),
      (by decide : (mkRat 3 10 : ℚ) ≤ 1)⟩
  · exact h

lemma educationStage_inv {text : String} {s : CatScores} (h : ScoresInv s) :
    ScoresInv (educationStage text s) := by
  rw [educationStage]; split
  · exact by decide
  · exact h

lemma techStage_inv {text : String} {s : CatScores} (h : ScoresInv s) :
    ScoresInv (techStage text s) := by
  rw [techStage]; split
  · exact by decide
  · exact h

lemma howtoStage_inv {text : String} {s : CatScores} (h : ScoresInv s) :
    ScoresInv (howtoStage text s) := by
  rw [howtoStage]; split
  · exact by decide
  · exact h

lemma durationStage_inv {duration : ℕ} {s : CatScores} (h : ScoresInv s) :
    ScoresInv (durationStage duration s) := by
  obtain ⟨hc, he0, he1, hd0, hd1⟩ := h
  rw [durationStage]
  split
  · split
    · exact ⟨hc,
        le_trans (by decide : (0 : ℚ) ≤ mkRat 7 10) (le_max_right _ _),
        max_le he1 (by decide),
        le_min hd0 (by decide),
        le_trans (min_le_left _ _) hd1⟩
    · exact ⟨hc, he0, he1, hd0, hd1⟩
  · split
    · exact ⟨hc, he0, he1,
        le_min (add_nonneg hd0 (by decide)) (by decide),
        min_le_right _ _⟩
    · exact ⟨hc, he0, he1, hd0, hd1⟩

lemma clickbaitDetection_bounds (text original_title : String) :
    0 ≤ clickbaitDetection text original_title ∧
      clickbaitDetection text original_title ≤ 1 := by
  rw [clickbaitDetection]
  constructor <;> (repeat' split) <;> decide

/-- C1: every classification the heuristic classifier produces has all
four scores in `[0, 1]` and a category from the classifier's enumerated
output set (in particular the category is never null — the field is a
total `String`). -/
theorem fallback_classification_invariant (v : Video) :
    (fallback_classification v).category ∈ classifierCategories ∧
    0 ≤ (fallback_classification v).confidence_score ∧
    (fallback_classification v).confidence_score ≤ 1 ∧
    0 ≤ (fallback_classification v).entertainment_score ∧
    (fallback_classification v).entertainment_score ≤ 1 ∧
    0 ≤ (fallback_classification v).depth_score ∧
    (fallback_classification v).depth_score ≤ 1 ∧
    0 ≤ (fallback_classification v).clickbait_score ∧
    (fallback_classification v).clickbait_score ≤ 1 := by
  have hinv : ScoresInv (durationStage v.duration_seconds
      (howtoStage (classifierText v)
        (techStage (classifierText v)
          (educationStage (classifierText v)
            (generalEntStage (classifierText v)
              (comedyStage (classifierText v)
                (gamingStage (classifierText v)
                  (musicChannelStage (lowerStr v.channel_title)
                    (musicStage (classifierText v) initialScores))))))))) :=
    durationStage_inv (howtoStage_inv (techStage_inv (educationStage_inv
      (generalEntStage_inv (comedyStage_inv (gamingStage_inv
        (musicChannelStage_inv (musicStage_inv (by decide)))))))))
  have hcb := clickbaitDetection_bounds (classifierText v) v.title
  rw [fallback_classification]
  exact ⟨hinv.1, (by decide : (0 : ℚ) ≤ mkRat 6 10),
    (by decide : (mkRat 6 10 : ℚ) ≤ 1), hinv.2.1, hinv.2.2.1,
    hinv.2.2.2.1, hinv.2.2.2.2, hcb.1, hcb.2⟩

/-! ### Scenario A (C8) -/

/-- Scenario A input: title "OFFICIAL MUSIC VIDEO - Song Name",
duration 240 s, all other metadata absent (dict defaults). -/
def videoA : Video :=
  ⟨"OFFICIAL MUSIC VIDEO - Song Name", "", [], "", 240, false, ""⟩

lemma fallback_classification_videoA :
    fallback_classification videoA =
      ⟨"MUSIC", mkRat 6 10, mkRat 8 10, mkRat 2 10, mkRat 1 2⟩ := by
  have hstages : durationStage videoA.duration_seconds
      (howtoStage (classifierText videoA)
        (techStage (classifierText videoA)
          (educationStage (classifierText videoA)
            (generalEntStage (classifierText videoA)
              (comedyStage (classifierText videoA)
                (gamingStage (classifierText videoA)
                  (musicChannelStage (lowerStr videoA.channel_title)
                    (musicStage (classifierText videoA) initialScores)))))))) =
      (⟨"MUSIC", mkRat 8 10, mkRat 2 10⟩ : CatScores) := by decide
  have hcb : clickbaitDetection (classifierText videoA) videoA.title =
      mkRat 1 2 := by
    rw [clickbaitDetection]
    have h1 : clickbait_patterns.any
        (fun p => containsSub (classifierText videoA) p) = false := by decide
    have h2 : (containsSub videoA.title "!!!" ||
        containsSub videoA.title "???" ||
        containsSub videoA.title "ðŸ”´") = false := by
      decide
    rw [h1, h2]
    have hc : ((videoA.title.data.countP Char.isUpper : ℚ) /
        ((max videoA.title.data.length 1 : ℕ) : ℚ) > mkRat 1 2) := by
      have e1 : videoA.title.data.countP Char.isUpper = 20 := by decide
      have e2 : videoA.title.data.length = 32 := by decide
      rw [e1, e2]
      norm_num [Rat.mkRat_eq_div]
    rw [if_neg (by simp), if_pos hc, if_neg (by simp)]
    decide
  rw [fallback_classification, hstages, hcb]

/-- C8 counterexample: on Scenario A's input the classifier does yield
category MUSIC and the study preset does block the video, but the reason
is the blocked-categories wording "Category 'MUSIC' is blocked in this
focus mode", not the allowed-categories wording "… is not allowed …"
that the claim describes: the study preset also lists MUSIC in
`blocked_categories`, and that check fires first. -/
theorem scenarioA_not_allowed_reason_counterexample :
    (fallback_classification videoA).category = "MUSIC" ∧
    (check_video studyMode videoA (fallback_classification videoA)).reason =
      some (blockedCategoryReason "MUSIC") ∧
    (check_video studyMode videoA (fallback_classification videoA)).reason ≠
      some (notAllowedCategoryReason "MUSIC") := by
  rw [fallback_classification_videoA]
  refine ⟨rfl, by decide, ?_⟩
  intro h
  have h2 : blockedCategoryReason "MUSIC" = notAllowedCategoryReason "MUSIC" := by
    have h1 : (check_video studyMode videoA
        ⟨"MUSIC", mkRat 6 10, mkRat 8 10, mkRat 2 10, mkRat 1 2⟩).reason =
        some (blockedCategoryReason "MUSIC") := by decide
    rw [h1] at h
    exact Option.some.inj h
  exact blockedCategoryReason_ne_notAllowedCategoryReason "MUSIC" h2

/-- C8 (amended): Scenario A — the classifier yields category MUSIC and
the study preset blocks the video, with the blocked-category reason
(MUSIC is in the preset's `blocked_categories`, whose check precedes the
allowed-categories check). -/
theorem scenarioA_blocked_music :
    (fallback_classification videoA).category = "MUSIC" ∧
    check_video studyMode videoA (fallback_classification videoA) =
      ⟨false, some (blockedCategoryReason "MUSIC")⟩ := by
  rw [fallback_classification_videoA]
  exact ⟨rfl, by decide⟩

/-! ### Personalization re-ranker properties (C7) -/

lemma rank_le_trans (a b c : ScoredVideo)
    (hab : decide (b.personalization_score ≤ a.personalization_score) = true)
    (hbc : decide (c.personalization_score ≤ b.personalization_score)
      = true) :
    decide (c.personalization_score ≤ a.personalization_score) = true :=
  decide_eq_true (le_trans (of_decide_eq_true hbc) (of_decide_eq_true hab))

lemma rank_le_total (a b : ScoredVideo) :
    (decide (b.personalization_score ≤ a.personalization_score) ||
      decide (a.personalization_score ≤ b.personalization_score)) = true := by
  rcases le_total b.personalization_score a.personalization_score with h | h
  · simp [h]
  · simp [h]

/-- C7: the re-ranker returns a permutation of its input (it never
removes an item), each output item carries
`score = 1.0 + 0.5·[preferred] − 0.5·[avoided] + 0.3·depth − 0.4·clickbait`,
the output is sorted by descending score, and ties keep the input's
relative order (items of equal score that appear as a pair of the
annotated input stay a pair of the output, in the same order). -/
theorem personalized_ranking_spec (preferred avoided : List String)
    (videos : List FeedVideo) :
    ((get_personalized_ranking preferred avoided videos).map
        (·.video)).Perm videos ∧
    (∀ x ∈ get_personalized_ranking preferred avoided videos,
        x.personalization_score =
          1 + (if x.video.category ∈ preferred then mkRat 5 10 else 0)
            - (if x.video.category ∈ avoided then mkRat 5 10 else 0)
            + x.video.depth_score * mkRat 3 10
            - x.video.clickbait_score * mkRat 4 10) ∧
    List.Pairwise (fun a b =>
        b.personalization_score ≤ a.personalization_score)
      (get_personalized_ranking preferred avoided videos) ∧
    (∀ a b : ScoredVideo,
        a.personalization_score = b.personalization_score →
        List.Sublist [a, b] (videos.map (fun v =>
          ScoredVideo.mk v (personalizationScore preferred avoided v))) →
        List.Sublist [a, b]
          (get_personalized_ranking preferred avoided videos)) := by
  rw [get_personalized_ranking]
  refine ⟨?_, ?_, ?_, ?_⟩
  · have hperm := (List.mergeSort_perm
      (videos.map (fun v =>
        ScoredVideo.mk v (personalizationScore preferred avoided v)))
      (fun a b =>
        decide (b.personalization_score ≤ a.personalization_score))).map
      (·.video)
    refine hperm.trans ?_
    rw [List.map_map]
    have heq : videos.map ((fun x => x.video) ∘ fun v =>
        ScoredVideo.mk v (personalizationScore preferred avoided v)) =
        videos := by
      simp [Function.comp_def]
    rw [heq]
  · intro x hx
    have hmem := (List.mergeSort_perm _ _).mem_iff.mp hx
    obtain ⟨v, -, rfl⟩ := List.mem_map.mp hmem
    show personalizationScore preferred avoided v = _
    by_cases hp : v.category ∈ preferred <;>
      by_cases ha : v.category ∈ avoided <;>
        simp [personalizationScore, hp, ha]
  · exact (List.sorted_mergeSort rank_le_trans rank_le_total _).imp
      (fun h => of_decide_eq_true h)
  · intro a b heq hsub
    exact List.sublist_mergeSort rank_le_trans rank_le_total
      (List.pairwise_cons.mpr
        ⟨fun x hx => by
          rw [List.mem_singleton] at hx
          subst hx
          exact decide_eq_true (le_of_eq heq.symm),
         List.pairwise_singleton _ _⟩)
      hsub

theorem personalized_ranking_spec_witness :
    List.Sublist
      [ScoredVideo.mk ⟨"A", 0, 0⟩ (personalizationScore [] [] ⟨"A", 0, 0⟩),
       ScoredVideo.mk ⟨"C", 0, 0⟩ (personalizationScore [] [] ⟨"C", 0, 0⟩)]
      (get_personalized_ranking [] [] [⟨"A", 0, 0⟩, ⟨"C", 0, 0⟩]) :=
  (personalized_ranking_spec [] [] [⟨"A", 0, 0⟩, ⟨"C", 0, 0⟩]).2.2.2
    (ScoredVideo.mk ⟨"A", 0, 0⟩ (personalizationScore [] [] ⟨"A", 0, 0⟩))
    (ScoredVideo.mk ⟨"C", 0, 0⟩ (personalizationScore [] [] ⟨"C", 0, 0⟩))
    rfl (List.Sublist.refl _)
